import Mathlib

/-!
The header `supNekoClient/model/data.h`.

A shallow embedding of the chat client's data model: the time and identifier
helpers (`formatTime`, `makeId`) and the `Message::makeMessage` factory with
its four variant constructors.

What the C++ code reads from its surroundings is made an explicit input:
the text of the UUID drawn by `QUuid::createUuid().toString()`, the clock
value returned by `QDateTime::currentSecsSinceEpoch()` and the local time
zone's offset from UTC.  They are gathered in `Env`.

Library behaviour the header relies on (`QString::sliced`,
`QDateTime::fromSecsSinceEpoch`, `QDateTime::toString`) is modelled after
the documentation of Qt 6.
-/

namespace model

/-! ## Qt value types -/

/-- A `QString`: a sequence of characters. -/
abbrev QString := String

/-- A `QByteArray`: a sequence of bytes. -/
abbrev QByteArray := List (Fin 256)

/-- A `QIcon`, represented by the image bytes it was built from; the
default-constructed icon is the null icon (no bytes). -/
structure QIcon where
  pixmap : QByteArray := []
deriving DecidableEq, Repr

/-- `QString::sliced(pos, n)`: the `n` characters starting at `pos`.  Qt
documents the behaviour as undefined when `pos < 0`, `n < 0` or
`pos + n > size()`; that case is `none` here. -/
def QString.sliced (s : QString) (pos n : Int) : Option QString :=
  if 0 ≤ pos ∧ 0 ≤ n ∧ pos + n ≤ (s.length : Int) then
    some (String.mk ((s.data.drop pos.toNat).take n.toNat))
  else
    none

/-! ## Calendar and clock (QDateTime) -/

/-- A calendar date as held by `QDate`. -/
structure QDate where
  year : Int
  month : Int
  day : Int
deriving DecidableEq, Repr

/-- A time of day as held by `QTime`, to the second. -/
structure QTime where
  hour : Int
  minute : Int
  second : Int
deriving DecidableEq, Repr

/-- A `QDateTime` in local time: the civil date and time of day shown by a
clock in the local time zone, and whether the object is valid at all. -/
structure QDateTime where
  isValid : Bool
  date : QDate
  time : QTime
deriving DecidableEq, Repr

/-- The default-constructed `QDateTime()`, which is not valid. -/
def QDateTime.null : QDateTime :=
  { isValid := false
    date := { year := 0, month := 0, day := 0 }
    time := { hour := 0, minute := 0, second := 0 } }

/-- Largest value of a 64-bit signed integer (`qint64`, `int64_t`). -/
def INT64_MAX : Int := 9223372036854775807

/-- Smallest value of a 64-bit signed integer. -/
def INT64_MIN : Int := -9223372036854775808

/-- Milliseconds in a second. -/
def MSECS_PER_SEC : Int := 1000

/-- Julian day number of 1970-01-01, the day of the Unix epoch. -/
def JULIAN_DAY_FOR_EPOCH : Int := 2440588

/-- Seconds in a day. -/
def SECS_PER_DAY : Int := 86400

/-- Conversion of a Julian day number to a date of the proleptic Gregorian
calendar, as done by Qt's Gregorian calendar backend: integer divisions
round towards negative infinity, and there is no year 0. -/
def julianToGregorian (jd : Int) : QDate :=
  let a := jd + 32044
  let b := (4 * a + 3) / 146097
  let c := a - (146097 * b) / 4
  let d := (4 * c + 3) / 1461
  let e := c - (1461 * d) / 4
  let m := (5 * e + 2) / 153
  let y := 100 * b + d - 4800 + m / 10
  { year := if y > 0 then y else y - 1
    month := m + 3 - 12 * (m / 10)
    day := e - (153 * m + 2) / 5 + 1 }

/-- The range of `QDateTime`, which holds a date and time as a count of
milliseconds in a `qint64`: a count of seconds is in range when it is between
`INT64_MIN / 1000` and `INT64_MAX / 1000` (division rounding towards zero, as
in C++) and when its milliseconds, moved to local time, still fit 64 bits. -/
def QDateTime.secsInRange (utcOffset : Int) (secs : Int) : Bool :=
  Int.tdiv INT64_MIN MSECS_PER_SEC ≤ secs ∧ secs ≤ Int.tdiv INT64_MAX MSECS_PER_SEC ∧
  INT64_MIN ≤ secs * MSECS_PER_SEC + utcOffset * MSECS_PER_SEC ∧
  secs * MSECS_PER_SEC + utcOffset * MSECS_PER_SEC ≤ INT64_MAX

/-- `QDateTime::fromSecsSinceEpoch(secs)` read in the local time zone, whose
offset from UTC is `utcOffset` seconds.  The argument is a `qint64`.  A value
outside the range of `QDateTime` (some 292 million years either side of the
epoch), for which Qt documents the behaviour as undefined, gives the invalid
date-time; a number that is no `qint64` at all is outside that range too. -/
def QDateTime.fromSecsSinceEpoch (utcOffset : Int) (secs : Int) : QDateTime :=
  if QDateTime.secsInRange utcOffset secs then
    let localSecs := secs + utcOffset
    let days := localSecs / SECS_PER_DAY
    let secsOfDay := localSecs % SECS_PER_DAY
    { isValid := true
      date := julianToGregorian (JULIAN_DAY_FOR_EPOCH + days)
      time := { hour := secsOfDay / 3600
                minute := secsOfDay % 3600 / 60
                second := secsOfDay % 60 } }
  else
    QDateTime.null

/-- Decimal text of a number. -/
def number (n : Int) : List Char :=
  if n < 0 then '-' :: Nat.toDigits 10 n.natAbs else Nat.toDigits 10 n.toNat

/-- Decimal text of a number with a leading zero when it has one digit,
as the two-letter format expressions print it. -/
def number2 (n : Int) : List Char :=
  if 0 ≤ n ∧ n < 10 then '0' :: number n else number n

/-- Expansion of a `QDateTime::toString` format.  The numeric expressions
`MM`, `M`, `dd`, `d`, `HH`, `H`, `mm`, `m`, `ss`, `s` are replaced by the
field they name; every other character is copied as it stands.  (Qt's
further expressions, such as names of days and months, the year, AM/PM and
quoted text, are not covered: the format used in this program has none.) -/
def QDateTime.expand (dt : QDateTime) : List Char → List Char
  | 'M' :: 'M' :: rest => number2 dt.date.month ++ expand dt rest
  | 'M' :: rest => number dt.date.month ++ expand dt rest
  | 'd' :: 'd' :: rest => number2 dt.date.day ++ expand dt rest
  | 'd' :: rest => number dt.date.day ++ expand dt rest
  | 'H' :: 'H' :: rest => number2 dt.time.hour ++ expand dt rest
  | 'H' :: rest => number dt.time.hour ++ expand dt rest
  | 'm' :: 'm' :: rest => number2 dt.time.minute ++ expand dt rest
  | 'm' :: rest => number dt.time.minute ++ expand dt rest
  | 's' :: 's' :: rest => number2 dt.time.second ++ expand dt rest
  | 's' :: rest => number dt.time.second ++ expand dt rest
  | c :: rest => c :: expand dt rest
  | [] => []

/-- `QDateTime::toString(format)`; the text of an invalid date-time is the
empty string. -/
def QDateTime.toString (dt : QDateTime) (format : QString) : QString :=
  if dt.isValid then String.mk (dt.expand format.data) else ""

/-! ## Utility functions of the header -/

/-- `formatTime`: a timestamp in seconds (an `int64_t`) turned into formatted
local time. -/
def formatTime (utcOffset : Int) (timestamp : Int) : QString :=
  let dateTime := QDateTime.fromSecsSinceEpoch utcOffset timestamp
  dateTime.toString "MM-dd HH:mm::ss"

/-- What a call of the factory reads from its surroundings. -/
structure Env where
  /-- Text returned by `QUuid::createUuid().toString()`. -/
  uuid : QString
  /-- Value returned by `QDateTime::currentSecsSinceEpoch()`. -/
  secTime : Int
  /-- Offset of the local time zone from UTC, in seconds. -/
  utcOffset : Int
deriving DecidableEq, Repr

/-- `getSecTime`: the clock, in seconds since the epoch. -/
def getSecTime (env : Env) : Int := env.secTime

/-! ## User information -/

/-- A user as attached to a message. -/
structure UserInfo where
  userId : QString := ""
  nickname : QString := ""
  description : QString := ""
  phone : QString := ""
  avatar : QIcon := {}
deriving DecidableEq, Repr

/-! ## Messages -/

/-- The enumeration `MessageType` by the value of its enumerators; a C++
variable of the type may also hold a value that names no enumerator. -/
abbrev MessageType := Int

def TEXT_TYPE : MessageType := 0
def IMAGE_TYPE : MessageType := 1
def FILE_TYPE : MessageType := 2
def SPEECH_TYPE : MessageType := 3
def UNKNOWN_TYPE : MessageType := 4

/-- A message; the defaults are those of the member initialisers, so `{}`
is the default-constructed `Message()`. -/
structure Message where
  messageId : QString := ""
  chatSessionId : QString := ""
  time : QString := ""
  messageType : MessageType := TEXT_TYPE
  sender : UserInfo := {}
  content : QByteArray := []
  fileId : QString := ""
  fileName : QString := ""
deriving DecidableEq, Repr

/-- `Message::makeId`: the letter M and a slice of the UUID text. -/
def Message.makeId (env : Env) : Option QString := do
  let part ← env.uuid.sliced 25 12
  pure ("M" ++ part)

def Message.makeTextMessage (env : Env) (chatSessionId : QString) (sender : UserInfo)
    (content : QByteArray) : Option Message := do
  let msg : Message := {}
  let msg := { msg with messageId := ← Message.makeId env }
  let msg := { msg with chatSessionId := chatSessionId }
  let msg := { msg with sender := sender }
  let msg := { msg with time := formatTime env.utcOffset (getSecTime env) }
  let msg := { msg with content := content }
  let msg := { msg with messageType := TEXT_TYPE }
  let msg := { msg with fileId := "" }
  let msg := { msg with fileName := "" }
  pure msg

def Message.makeImageMessage (env : Env) (chatSessionId : QString) (sender : UserInfo)
    (content : QByteArray) : Option Message := do
  let msg : Message := {}
  let msg := { msg with messageId := ← Message.makeId env }
  let msg := { msg with chatSessionId := chatSessionId }
  let msg := { msg with sender := sender }
  let msg := { msg with time := formatTime env.utcOffset (getSecTime env) }
  let msg := { msg with content := content }
  let msg := { msg with messageType := IMAGE_TYPE }
  let msg := { msg with fileId := "" }
  let msg := { msg with fileName := "" }
  pure msg

def Message.makeFileMessage (env : Env) (chatSessionId : QString) (sender : UserInfo)
    (content : QByteArray) (filename : QString) : Option Message := do
  let msg : Message := {}
  let msg := { msg with messageId := ← Message.makeId env }
  let msg := { msg with chatSessionId := chatSessionId }
  let msg := { msg with sender := sender }
  let msg := { msg with time := formatTime env.utcOffset (getSecTime env) }
  let msg := { msg with content := content }
  let msg := { msg with messageType := FILE_TYPE }
  let msg := { msg with fileId := "" }
  let msg := { msg with fileName := filename }
  pure msg

def Message.makeSpeechMessage (env : Env) (chatSessionId : QString) (sender : UserInfo)
    (content : QByteArray) : Option Message := do
  let msg : Message := {}
  let msg := { msg with messageId := ← Message.makeId env }
  let msg := { msg with chatSessionId := chatSessionId }
  let msg := { msg with sender := sender }
  let msg := { msg with time := formatTime env.utcOffset (getSecTime env) }
  let msg := { msg with content := content }
  let msg := { msg with messageType := SPEECH_TYPE }
  let msg := { msg with fileId := "" }
  let msg := { msg with fileName := "" }
  pure msg

/-- `Message::makeMessage`: the factory, dispatching on the requested kind. -/
def Message.makeMessage (env : Env) (messageType : MessageType) (chatSessionId : QString)
    (sender : UserInfo) (content : QByteArray) (extraInfo : QString) : Option Message :=
  if messageType = TEXT_TYPE then
    Message.makeTextMessage env chatSessionId sender content
  else if messageType = IMAGE_TYPE then
    Message.makeImageMessage env chatSessionId sender content
  else if messageType = FILE_TYPE then
    Message.makeFileMessage env chatSessionId sender content extraInfo
  else if messageType = SPEECH_TYPE then
    Message.makeSpeechMessage env chatSessionId sender content
  else if messageType = UNKNOWN_TYPE then
    some {}
  else
    some {}

/-! ## Chat sessions -/

/-- A conversation; `userId` is the peer of a one-to-one chat and is left
empty for a group. -/
structure ChatSessionInfo where
  chatSessionId : QString := ""
  charSessionName : QString := ""
  lastMessage : Message := {}
  avatar : QIcon := {}
  userId : QString := ""
deriving DecidableEq, Repr

/-! ## The shape of a UUID text -/

/-- A hexadecimal digit, in either case. -/
def isHexDigit (c : Char) : Bool :=
  ('0' ≤ c && c ≤ '9') || ('a' ≤ c && c ≤ 'f') || ('A' ≤ c && c ≤ 'F')

/-- The braced text form of a UUID as `QUuid::toString()` prints it: 38
characters, an opening brace, five groups of 8, 4, 4, 4 and 12 hexadecimal
digits separated by hyphens, and a closing brace. -/
def isBracedUuid (u : QString) : Bool :=
  u.data.length == 38 &&
  u.data.take 1 == ['\x7b'] &&
  ((u.data.drop 1).take 8).all isHexDigit &&
  (u.data.drop 9).take 1 == ['-'] &&
  ((u.data.drop 10).take 4).all isHexDigit &&
  (u.data.drop 14).take 1 == ['-'] &&
  ((u.data.drop 15).take 4).all isHexDigit &&
  (u.data.drop 19).take 1 == ['-'] &&
  ((u.data.drop 20).take 4).all isHexDigit &&
  (u.data.drop 24).take 1 == ['-'] &&
  ((u.data.drop 25).take 12).all isHexDigit &&
  u.data.drop 37 == ['\x7d']

/-- The last group of a UUID text: the 12 characters at offsets 25 to 36. -/
def lastGroup (u : QString) : List Char :=
  (u.data.drop 25).take 12

/-! ## The Gregorian calendar, day by day

The civil calendar stated on its own, without the arithmetic of the
conversion: the length of each month, the day that follows a day and the day
that comes before it.  Years are counted as astronomers do, the year before
year 1 being year 0; the formatted time shows no year. -/

/-- Leap years of the Gregorian calendar: every fourth year, except the
years of a century that are not every fourth century. -/
def isLeapYear (y : Int) : Bool :=
  y % 4 = 0 ∧ (y % 100 ≠ 0 ∨ y % 400 = 0)

/-- Number of days of month `m` in year `y`. -/
def daysInMonth (y m : Int) : Int :=
  if m = 2 then (if isLeapYear y then 29 else 28)
  else if m = 4 ∨ m = 6 ∨ m = 9 ∨ m = 11 then 30 else 31

/-- The day after a date. -/
def nextDay (dt : QDate) : QDate :=
  if dt.day < daysInMonth dt.year dt.month then { dt with day := dt.day + 1 }
  else if dt.month < 12 then { dt with month := dt.month + 1, day := 1 }
  else { year := dt.year + 1, month := 1, day := 1 }

/-- The day of the Unix epoch, 1 January 1970. -/
def epochDate : QDate := { year := 1970, month := 1, day := 1 }

/-- The day before a date. -/
def prevDay (dt : QDate) : QDate :=
  if 1 < dt.day then { dt with day := dt.day - 1 }
  else if 1 < dt.month then
    { dt with month := dt.month - 1, day := daysInMonth dt.year (dt.month - 1) }
  else { year := dt.year - 1, month := 12, day := 31 }

/-- The civil date `n` days after 1 January 1970, or `-n` days before it
when `n` is negative. -/
def civilDate (n : Int) : QDate :=
  if 0 ≤ n then nextDay^[n.toNat] epochDate else prevDay^[(-n).toNat] epochDate

/-- A number below 100 written with exactly two decimal digits. -/
def twoDigits (n : Nat) : List Char :=
  [Nat.digitChar (n / 10), Nat.digitChar (n % 10)]

/-! ## The quantities of the calendar conversion -/

/-- Century of day `a`, where `a` counts days from 1 March of the year -4800. -/
def centuryOf (a : Int) : Int := (4 * a + 3) / 146097

/-- Day within its century. -/
def centuryDay (a : Int) : Int := a - (146097 * centuryOf a) / 4

/-- Year within its century, years starting on 1 March. -/
def yearOf (a : Int) : Int := (4 * centuryDay a + 3) / 1461

/-- Day within its year, counted from 1 March. -/
def yearDay (a : Int) : Int := centuryDay a - (1461 * yearOf a) / 4

/-- Month within its year, counted from March. -/
def monthOf (a : Int) : Int := (5 * yearDay a + 2) / 153

/-- The date the conversion builds from century, year, day and month, with
its year counted astronomically, before the step over the missing year 0. -/
def astroDate (b d e m : Int) : QDate :=
  { year := 100 * b + d - 4800 + m / 10
    month := m + 3 - 12 * (m / 10)
    day := e - (153 * m + 2) / 5 + 1 }

/-- The astronomical date of day `a`, counted from 1 March of the year -4800. -/
def astroOf (a : Int) : QDate :=
  astroDate (centuryOf a) (yearOf a) (yearDay a) (monthOf a)

/-- Last day of a year that starts on 1 March: day 365 when the year ends
with a 29 February, day 364 otherwise. -/
def lastDay (b d : Int) : Int :=
  if d % 4 = 3 ∧ (d ≠ 99 ∨ b % 4 = 3) then 365 else 364

/-! ## Sample values -/

/-- A UUID text. -/
def sampleUuid : QString := "\x7b67c8770b-44f1-410a-ab9a-f9b5446f13ee\x7d"

/-- Another UUID text, with the same last group as `sampleUuid`. -/
def sampleUuidSameTail : QString := "\x7b0e02b2c3-5a77-4c1d-9f3e-f9b5446f13ee\x7d"

/-- A UUID text whose last group is not that of `sampleUuid`. -/
def sampleUuidOther : QString := "\x7b0e02b2c3-5a77-4c1d-9f3e-0123456789ab\x7d"

/-- Surroundings of a call made at 2024-03-05 14:30:00 UTC. -/
def sampleEnv : Env := { uuid := sampleUuid, secTime := 1709649000, utcOffset := 0 }

/-- A sender. -/
def sampleSender : UserInfo := { userId := "u1", nickname := "neko" }

/-- A payload of three bytes. -/
def sampleContent : QByteArray := [104, 105, 33]

/-! ## Identifiers -/

theorem length_of_isBracedUuid {u : QString} (h : isBracedUuid u = true) :
    u.length = 38 := by
  unfold isBracedUuid at h
  simp only [Bool.and_eq_true, beq_iff_eq] at h
  exact h.1.1.1.1.1.1.1.1.1.1.1

theorem lastGroup_hex {u : QString} (h : isBracedUuid u = true) :
    ∀ c ∈ lastGroup u, isHexDigit c = true := by
  unfold isBracedUuid at h
  simp only [Bool.and_eq_true, beq_iff_eq, List.all_eq_true] at h
  exact h.1.2

theorem lastGroup_length {u : QString} (h : u.length = 38) : (lastGroup u).length = 12 := by
  have h38 : u.data.length = 38 := h
  simp [lastGroup, h38]

theorem sliced_uuid {u : QString} (h : u.length = 38) :
    QString.sliced u 25 12 = some (String.mk (lastGroup u)) := by
  unfold QString.sliced lastGroup
  rw [if_pos]
  · rfl
  · rw [h]; decide

theorem makeId_eq {env : Env} (h : env.uuid.length = 38) :
    Message.makeId env = some ("M" ++ String.mk (lastGroup env.uuid)) := by
  unfold Message.makeId
  rw [sliced_uuid h]
  rfl

theorem makeId_ne_empty (g : List Char) : "M" ++ String.mk g ≠ "" := by
  intro h
  have := congrArg String.data h
  simp at this

/-! ## The variant constructors -/

theorem makeTextMessage_eq {env : Env} (h : env.uuid.length = 38) (chatSessionId : QString)
    (sender : UserInfo) (content : QByteArray) :
    Message.makeTextMessage env chatSessionId sender content =
      some { messageId := "M" ++ String.mk (lastGroup env.uuid)
             chatSessionId := chatSessionId
             time := formatTime env.utcOffset env.secTime
             messageType := TEXT_TYPE
             sender := sender
             content := content
             fileId := ""
             fileName := "" } := by
  unfold Message.makeTextMessage
  rw [makeId_eq h]
  rfl

theorem makeImageMessage_eq {env : Env} (h : env.uuid.length = 38) (chatSessionId : QString)
    (sender : UserInfo) (content : QByteArray) :
    Message.makeImageMessage env chatSessionId sender content =
      some { messageId := "M" ++ String.mk (lastGroup env.uuid)
             chatSessionId := chatSessionId
             time := formatTime env.utcOffset env.secTime
             messageType := IMAGE_TYPE
             sender := sender
             content := content
             fileId := ""
             fileName := "" } := by
  unfold Message.makeImageMessage
  rw [makeId_eq h]
  rfl

theorem makeFileMessage_eq {env : Env} (h : env.uuid.length = 38) (chatSessionId : QString)
    (sender : UserInfo) (content : QByteArray) (filename : QString) :
    Message.makeFileMessage env chatSessionId sender content filename =
      some { messageId := "M" ++ String.mk (lastGroup env.uuid)
             chatSessionId := chatSessionId
             time := formatTime env.utcOffset env.secTime
             messageType := FILE_TYPE
             sender := sender
             content := content
             fileId := ""
             fileName := filename } := by
  unfold Message.makeFileMessage
  rw [makeId_eq h]
  rfl

theorem makeSpeechMessage_eq {env : Env} (h : env.uuid.length = 38) (chatSessionId : QString)
    (sender : UserInfo) (content : QByteArray) :
    Message.makeSpeechMessage env chatSessionId sender content =
      some { messageId := "M" ++ String.mk (lastGroup env.uuid)
             chatSessionId := chatSessionId
             time := formatTime env.utcOffset env.secTime
             messageType := SPEECH_TYPE
             sender := sender
             content := content
             fileId := ""
             fileName := "" } := by
  unfold Message.makeSpeechMessage
  rw [makeId_eq h]
  rfl

/-! ## The factory, kind by kind -/

theorem makeMessage_text (env : Env) (chatSessionId : QString) (sender : UserInfo)
    (content : QByteArray) (extraInfo : QString) :
    Message.makeMessage env TEXT_TYPE chatSessionId sender content extraInfo =
      Message.makeTextMessage env chatSessionId sender content := by
  unfold Message.makeMessage
  rw [if_pos rfl]

theorem makeMessage_image (env : Env) (chatSessionId : QString) (sender : UserInfo)
    (content : QByteArray) (extraInfo : QString) :
    Message.makeMessage env IMAGE_TYPE chatSessionId sender content extraInfo =
      Message.makeImageMessage env chatSessionId sender content := by
  unfold Message.makeMessage
  rw [if_neg (by decide), if_pos rfl]

theorem makeMessage_file (env : Env) (chatSessionId : QString) (sender : UserInfo)
    (content : QByteArray) (extraInfo : QString) :
    Message.makeMessage env FILE_TYPE chatSessionId sender content extraInfo =
      Message.makeFileMessage env chatSessionId sender content extraInfo := by
  unfold Message.makeMessage
  rw [if_neg (by decide), if_neg (by decide), if_pos rfl]

theorem makeMessage_speech (env : Env) (chatSessionId : QString) (sender : UserInfo)
    (content : QByteArray) (extraInfo : QString) :
    Message.makeMessage env SPEECH_TYPE chatSessionId sender content extraInfo =
      Message.makeSpeechMessage env chatSessionId sender content := by
  unfold Message.makeMessage
  rw [if_neg (by decide), if_neg (by decide), if_neg (by decide), if_pos rfl]

theorem makeMessage_other (env : Env) (kind : MessageType) (chatSessionId : QString)
    (sender : UserInfo) (content : QByteArray) (extraInfo : QString)
    (h0 : kind ≠ TEXT_TYPE) (h1 : kind ≠ IMAGE_TYPE) (h2 : kind ≠ FILE_TYPE)
    (h3 : kind ≠ SPEECH_TYPE) :
    Message.makeMessage env kind chatSessionId sender content extraInfo = some {} := by
  unfold Message.makeMessage
  rw [if_neg h0, if_neg h1, if_neg h2, if_neg h3]
  split_ifs <;> rfl


/-! ## The factory: what every call returns -/

/-- The factory's result for one of the four content kinds, written out. -/
theorem makeMessage_variant {env : Env} (h : env.uuid.length = 38) (kind : MessageType)
    (chatSessionId : QString) (sender : UserInfo) (content : QByteArray) (extraInfo : QString)
    (hk : kind = TEXT_TYPE ∨ kind = IMAGE_TYPE ∨ kind = FILE_TYPE ∨ kind = SPEECH_TYPE) :
    Message.makeMessage env kind chatSessionId sender content extraInfo =
      some { messageId := "M" ++ String.mk (lastGroup env.uuid)
             chatSessionId := chatSessionId
             time := formatTime env.utcOffset env.secTime
             messageType := kind
             sender := sender
             content := content
             fileId := ""
             fileName := if kind = FILE_TYPE then extraInfo else "" } := by
  rcases hk with hk | hk | hk | hk <;> subst hk
  · rw [makeMessage_text, makeTextMessage_eq h]; rfl
  · rw [makeMessage_image, makeImageMessage_eq h]; rfl
  · rw [makeMessage_file, makeFileMessage_eq h]; rfl
  · rw [makeMessage_speech, makeSpeechMessage_eq h]; rfl

/-- Claim C1: for each of the kinds Text, Image, File and Speech, and for the
UUID text and the clock value read during the call, `makeMessage` returns a
message whose `messageId` is the result of `makeId` on that UUID, whose `time`
is `formatTime` of that clock value, whose `chatSessionId`, `sender` and
`content` are the arguments, and whose `messageType` is the requested kind. -/
theorem makeMessage_variant_fields (env : Env) (kind : MessageType) (sessionId : QString)
    (sender : UserInfo) (content : QByteArray) (extra : QString)
    (hu : isBracedUuid env.uuid = true)
    (hk : kind = TEXT_TYPE ∨ kind = IMAGE_TYPE ∨ kind = FILE_TYPE ∨ kind = SPEECH_TYPE) :
    ∃ m, Message.makeMessage env kind sessionId sender content extra = some m ∧
      Message.makeId env = some m.messageId ∧
      m.time = formatTime env.utcOffset env.secTime ∧
      m.chatSessionId = sessionId ∧ m.sender = sender ∧ m.content = content ∧
      m.messageType = kind := by
  have h := length_of_isBracedUuid hu
  exact ⟨_, makeMessage_variant h kind sessionId sender content extra hk, makeId_eq h,
    rfl, rfl, rfl, rfl, rfl⟩

theorem makeMessage_variant_fields_witness :
    isBracedUuid sampleEnv.uuid = true ∧
    ∃ m, Message.makeMessage sampleEnv IMAGE_TYPE "s1" sampleSender sampleContent "" = some m ∧
      Message.makeId sampleEnv = some m.messageId ∧
      m.time = formatTime sampleEnv.utcOffset sampleEnv.secTime ∧
      m.chatSessionId = "s1" ∧ m.sender = sampleSender ∧ m.content = sampleContent ∧
      m.messageType = IMAGE_TYPE :=
  ⟨by decide, makeMessage_variant_fields sampleEnv IMAGE_TYPE "s1" sampleSender sampleContent ""
    (by decide) (by decide)⟩

/-- Claim C2: for the kind Unknown and for every value that is none of the
five enumerators, `makeMessage` returns the default-constructed message: its
`messageId`, `chatSessionId`, `time`, `fileId` and `fileName` are empty, its
`content` is empty, its `sender` is the default user (all strings empty), its
`messageType` is Text and not Unknown; and the result is the same whatever
the other inputs are. -/
theorem makeMessage_unknown_default (env : Env) (kind : MessageType) (sessionId : QString)
    (sender : UserInfo) (content : QByteArray) (extra : QString)
    (hk : kind = UNKNOWN_TYPE ∨
      (kind ≠ TEXT_TYPE ∧ kind ≠ IMAGE_TYPE ∧ kind ≠ FILE_TYPE ∧ kind ≠ SPEECH_TYPE ∧
        kind ≠ UNKNOWN_TYPE)) :
    ∃ m, Message.makeMessage env kind sessionId sender content extra = some m ∧
      m = ({} : Message) ∧
      m.messageId = "" ∧ m.chatSessionId = "" ∧ m.time = "" ∧ m.fileId = "" ∧
      m.fileName = "" ∧ m.content = [] ∧ m.sender = ({} : UserInfo) ∧
      m.sender.userId = "" ∧ m.sender.nickname = "" ∧ m.sender.description = "" ∧
      m.sender.phone = "" ∧
      m.messageType = TEXT_TYPE ∧ m.messageType ≠ UNKNOWN_TYPE ∧
      ∀ (env2 : Env) (sessionId2 : QString) (sender2 : UserInfo) (content2 : QByteArray)
        (extra2 : QString),
        Message.makeMessage env2 kind sessionId2 sender2 content2 extra2 = some m := by
  have hne : kind ≠ TEXT_TYPE ∧ kind ≠ IMAGE_TYPE ∧ kind ≠ FILE_TYPE ∧ kind ≠ SPEECH_TYPE := by
    rcases hk with hk | hk
    · subst hk; decide
    · exact ⟨hk.1, hk.2.1, hk.2.2.1, hk.2.2.2.1⟩
  refine ⟨{}, makeMessage_other env kind sessionId sender content extra hne.1 hne.2.1
    hne.2.2.1 hne.2.2.2, rfl, rfl, rfl, rfl, rfl, rfl, rfl, rfl, rfl, rfl, rfl, rfl, rfl,
    by decide, ?_⟩
  intro env2 sessionId2 sender2 content2 extra2
  exact makeMessage_other env2 kind sessionId2 sender2 content2 extra2 hne.1 hne.2.1
    hne.2.2.1 hne.2.2.2

theorem makeMessage_unknown_default_witness :
    ∃ m, Message.makeMessage sampleEnv 7 "s1" sampleSender sampleContent "a.txt" = some m ∧
      m = ({} : Message) ∧
      m.messageId = "" ∧ m.chatSessionId = "" ∧ m.time = "" ∧ m.fileId = "" ∧
      m.fileName = "" ∧ m.content = [] ∧ m.sender = ({} : UserInfo) ∧
      m.sender.userId = "" ∧ m.sender.nickname = "" ∧ m.sender.description = "" ∧
      m.sender.phone = "" ∧
      m.messageType = TEXT_TYPE ∧ m.messageType ≠ UNKNOWN_TYPE ∧
      ∀ (env2 : Env) (sessionId2 : QString) (sender2 : UserInfo) (content2 : QByteArray)
        (extra2 : QString),
        Message.makeMessage env2 7 sessionId2 sender2 content2 extra2 = some m :=
  makeMessage_unknown_default sampleEnv 7 "s1" sampleSender sampleContent "a.txt"
    (Or.inr (by decide))

/-- Claim C3, as stated, fails at the kind Unknown: the message returned for
session "s1", a named sender and a payload of three bytes has an empty
`messageId`, and its `chatSessionId`, `sender` and `content` are not the
arguments. -/
theorem makeMessage_unknown_drops_fields :
    ∃ m, Message.makeMessage sampleEnv UNKNOWN_TYPE "s1" sampleSender sampleContent "" = some m ∧
      m.messageId = "" ∧ m.chatSessionId ≠ "s1" ∧ m.sender ≠ sampleSender ∧
      m.content ≠ sampleContent :=
  ⟨{}, by decide, by decide, by decide, by decide, by decide⟩

/-- Claim C3, amended: for the kinds Text, Image, File and Speech `makeMessage`
returns a message with a non-empty `messageId`, with `chatSessionId`, `sender`
and `content` equal to the arguments and with `messageType` equal to the kind;
for the kind Unknown it returns the default message, whose `messageType` is
Text, whose `messageId` and `chatSessionId` are empty, whose `sender` is the
default user and whose `content` is empty. -/
theorem makeMessage_common_fields (env : Env) (kind : MessageType) (sessionId : QString)
    (sender : UserInfo) (content : QByteArray) (extra : QString)
    (hu : isBracedUuid env.uuid = true)
    (hk : kind = TEXT_TYPE ∨ kind = IMAGE_TYPE ∨ kind = FILE_TYPE ∨ kind = SPEECH_TYPE ∨
      kind = UNKNOWN_TYPE) :
    ∃ m, Message.makeMessage env kind sessionId sender content extra = some m ∧
      (kind ≠ UNKNOWN_TYPE →
        m.messageId ≠ "" ∧ m.chatSessionId = sessionId ∧ m.sender = sender ∧
        m.content = content ∧ m.messageType = kind) ∧
      (kind = UNKNOWN_TYPE →
        m.messageType = TEXT_TYPE ∧ m.messageId = "" ∧ m.chatSessionId = "" ∧
        m.sender = ({} : UserInfo) ∧ m.content = []) := by
  have h := length_of_isBracedUuid hu
  by_cases hunk : kind = UNKNOWN_TYPE
  · subst hunk
    exact ⟨{}, makeMessage_other env _ sessionId sender content extra (by decide) (by decide)
      (by decide) (by decide), fun hne => absurd rfl hne, fun _ => ⟨rfl, rfl, rfl, rfl, rfl⟩⟩
  · have hk4 : kind = TEXT_TYPE ∨ kind = IMAGE_TYPE ∨ kind = FILE_TYPE ∨ kind = SPEECH_TYPE := by
      rcases hk with hk | hk | hk | hk | hk
      · exact Or.inl hk
      · exact Or.inr (Or.inl hk)
      · exact Or.inr (Or.inr (Or.inl hk))
      · exact Or.inr (Or.inr (Or.inr hk))
      · exact absurd hk hunk
    exact ⟨_, makeMessage_variant h kind sessionId sender content extra hk4,
      fun _ => ⟨makeId_ne_empty _, rfl, rfl, rfl, rfl⟩, fun hu2 => absurd hu2 hunk⟩

theorem makeMessage_common_fields_witness :
    isBracedUuid sampleEnv.uuid = true ∧
    ∃ m, Message.makeMessage sampleEnv SPEECH_TYPE "s1" sampleSender sampleContent "" = some m ∧
      (SPEECH_TYPE ≠ UNKNOWN_TYPE →
        m.messageId ≠ "" ∧ m.chatSessionId = "s1" ∧ m.sender = sampleSender ∧
        m.content = sampleContent ∧ m.messageType = SPEECH_TYPE) ∧
      (SPEECH_TYPE = UNKNOWN_TYPE →
        m.messageType = TEXT_TYPE ∧ m.messageId = "" ∧ m.chatSessionId = "" ∧
        m.sender = ({} : UserInfo) ∧ m.content = []) :=
  ⟨by decide, makeMessage_common_fields sampleEnv SPEECH_TYPE "s1" sampleSender sampleContent ""
    (by decide) (by decide)⟩


/-- The factory always returns a message when the UUID text has its 38
characters, and the message is one of two: the variant message of the kind
asked for, or the default message. -/
theorem makeMessage_cases {env : Env} (h : env.uuid.length = 38) (kind : MessageType)
    (chatSessionId : QString) (sender : UserInfo) (content : QByteArray) (extraInfo : QString) :
    ((kind = TEXT_TYPE ∨ kind = IMAGE_TYPE ∨ kind = FILE_TYPE ∨ kind = SPEECH_TYPE) ∧
      Message.makeMessage env kind chatSessionId sender content extraInfo =
        some { messageId := "M" ++ String.mk (lastGroup env.uuid)
               chatSessionId := chatSessionId
               time := formatTime env.utcOffset env.secTime
               messageType := kind
               sender := sender
               content := content
               fileId := ""
               fileName := if kind = FILE_TYPE then extraInfo else "" }) ∨
    ((kind ≠ TEXT_TYPE ∧ kind ≠ IMAGE_TYPE ∧ kind ≠ FILE_TYPE ∧ kind ≠ SPEECH_TYPE) ∧
      Message.makeMessage env kind chatSessionId sender content extraInfo = some {}) := by
  by_cases h0 : kind = TEXT_TYPE
  · exact Or.inl ⟨Or.inl h0, makeMessage_variant h kind _ _ _ _ (Or.inl h0)⟩
  by_cases h1 : kind = IMAGE_TYPE
  · exact Or.inl ⟨Or.inr (Or.inl h1), makeMessage_variant h kind _ _ _ _ (Or.inr (Or.inl h1))⟩
  by_cases h2 : kind = FILE_TYPE
  · exact Or.inl ⟨Or.inr (Or.inr (Or.inl h2)),
      makeMessage_variant h kind _ _ _ _ (Or.inr (Or.inr (Or.inl h2)))⟩
  by_cases h3 : kind = SPEECH_TYPE
  · exact Or.inl ⟨Or.inr (Or.inr (Or.inr h3)),
      makeMessage_variant h kind _ _ _ _ (Or.inr (Or.inr (Or.inr h3)))⟩
  exact Or.inr ⟨⟨h0, h1, h2, h3⟩, makeMessage_other env kind _ _ _ _ h0 h1 h2 h3⟩

/-- Claim C4: the message returned by `makeMessage`, for every kind value
(Unknown and values that name no enumerator included), satisfies the invariant
of its own `messageType`: Text has empty `fileId` and `fileName`; Image and
Speech have an empty `fileName`; File has the `fileName` given as `extra`. -/
theorem makeMessage_variant_invariant (env : Env) (kind : MessageType) (sessionId : QString)
    (sender : UserInfo) (content : QByteArray) (extra : QString)
    (hu : isBracedUuid env.uuid = true) :
    ∃ m, Message.makeMessage env kind sessionId sender content extra = some m ∧
      (m.messageType = TEXT_TYPE → m.fileId = "" ∧ m.fileName = "") ∧
      (m.messageType = IMAGE_TYPE ∨ m.messageType = SPEECH_TYPE → m.fileName = "") ∧
      (m.messageType = FILE_TYPE → m.fileName = extra) := by
  have h := length_of_isBracedUuid hu
  rcases makeMessage_cases h kind sessionId sender content extra with ⟨hk, hm⟩ | ⟨_, hm⟩
  · refine ⟨_, hm, ?_, ?_, ?_⟩
    · intro ht
      have ht2 : kind = TEXT_TYPE := ht
      subst ht2
      exact ⟨rfl, rfl⟩
    · intro ht
      have ht2 : kind = IMAGE_TYPE ∨ kind = SPEECH_TYPE := ht
      rcases ht2 with ht2 | ht2 <;> subst ht2 <;> rfl
    · intro ht
      have ht2 : kind = FILE_TYPE := ht
      subst ht2
      rfl
  · refine ⟨_, hm, fun _ => ⟨rfl, rfl⟩, fun _ => rfl, ?_⟩
    intro ht
    exact absurd ht (by decide)

theorem makeMessage_variant_invariant_witness :
    isBracedUuid sampleEnv.uuid = true ∧
    ∃ m, Message.makeMessage sampleEnv FILE_TYPE "s1" sampleSender sampleContent "a.txt" = some m ∧
      (m.messageType = TEXT_TYPE → m.fileId = "" ∧ m.fileName = "") ∧
      (m.messageType = IMAGE_TYPE ∨ m.messageType = SPEECH_TYPE → m.fileName = "") ∧
      (m.messageType = FILE_TYPE → m.fileName = "a.txt") :=
  ⟨by decide, makeMessage_variant_invariant sampleEnv FILE_TYPE "s1" sampleSender sampleContent
    "a.txt" (by decide)⟩

/-- Claim C5: for the kind File and every string `extra`, the empty one
included, `makeMessage` returns a message whose `fileName` is `extra`. -/
theorem makeMessage_file_fileName (env : Env) (sessionId : QString) (sender : UserInfo)
    (content : QByteArray) (extra : QString) (hu : isBracedUuid env.uuid = true) :
    ∃ m, Message.makeMessage env FILE_TYPE sessionId sender content extra = some m ∧
      m.fileName = extra := by
  have h := length_of_isBracedUuid hu
  exact ⟨_, makeMessage_variant h FILE_TYPE sessionId sender content extra
    (Or.inr (Or.inr (Or.inl rfl))), rfl⟩

theorem makeMessage_file_fileName_witness :
    isBracedUuid sampleEnv.uuid = true ∧
    ∃ m, Message.makeMessage sampleEnv FILE_TYPE "s1" sampleSender sampleContent "report.pdf" =
        some m ∧
      m.fileName = "report.pdf" :=
  ⟨by decide, makeMessage_file_fileName sampleEnv "s1" sampleSender sampleContent "report.pdf"
    (by decide)⟩

/-- Claim C6: `extra` is ignored for every kind other than File: two calls
that differ only in `extra`, made with the same UUID and clock values, return
the same message. -/
theorem makeMessage_extra_ignored (env : Env) (kind : MessageType) (sessionId : QString)
    (sender : UserInfo) (content : QByteArray) (extra1 extra2 : QString)
    (hu : isBracedUuid env.uuid = true) (hk : kind ≠ FILE_TYPE) :
    ∃ m, Message.makeMessage env kind sessionId sender content extra1 = some m ∧
      Message.makeMessage env kind sessionId sender content extra2 = some m := by
  have h := length_of_isBracedUuid hu
  rcases makeMessage_cases h kind sessionId sender content extra1 with ⟨hv, hm⟩ | ⟨hv, hm⟩
  · refine ⟨_, hm, ?_⟩
    rw [makeMessage_variant h kind sessionId sender content extra2 hv, if_neg hk, if_neg hk]
  · exact ⟨_, hm, makeMessage_other env kind sessionId sender content extra2 hv.1 hv.2.1
      hv.2.2.1 hv.2.2.2⟩

theorem makeMessage_extra_ignored_witness :
    isBracedUuid sampleEnv.uuid = true ∧ TEXT_TYPE ≠ FILE_TYPE ∧
    ∃ m, Message.makeMessage sampleEnv TEXT_TYPE "s1" sampleSender sampleContent "a.txt" =
        some m ∧
      Message.makeMessage sampleEnv TEXT_TYPE "s1" sampleSender sampleContent "b.txt" = some m :=
  ⟨by decide, by decide, makeMessage_extra_ignored sampleEnv TEXT_TYPE "s1" sampleSender
    sampleContent "a.txt" "b.txt" (by decide) (by decide)⟩

/-- Claim C7, as stated, fails in two ways.  Two Text messages made with two
different UUIDs that share their last group have the same `messageId`; and two
messages of kind Unknown have the same (empty) `messageId` although the UUIDs
at hand differ in every group. -/
theorem makeMessage_ids_collide :
    (sampleUuid ≠ sampleUuidSameTail ∧
      isBracedUuid sampleUuid = true ∧ isBracedUuid sampleUuidSameTail = true ∧
      ∃ m1 m2,
        Message.makeMessage { uuid := sampleUuid, secTime := 1709649000, utcOffset := 0 }
          TEXT_TYPE "s1" sampleSender sampleContent "" = some m1 ∧
        Message.makeMessage { uuid := sampleUuidSameTail, secTime := 1709649001, utcOffset := 0 }
          TEXT_TYPE "s1" sampleSender sampleContent "" = some m2 ∧
        m1.messageId = m2.messageId) ∧
    (sampleUuid ≠ sampleUuidOther ∧ lastGroup sampleUuid ≠ lastGroup sampleUuidOther ∧
      isBracedUuid sampleUuid = true ∧ isBracedUuid sampleUuidOther = true ∧
      ∃ m1 m2,
        Message.makeMessage { uuid := sampleUuid, secTime := 1709649000, utcOffset := 0 }
          UNKNOWN_TYPE "s1" sampleSender sampleContent "" = some m1 ∧
        Message.makeMessage { uuid := sampleUuidOther, secTime := 1709649001, utcOffset := 0 }
          UNKNOWN_TYPE "s1" sampleSender sampleContent "" = some m2 ∧
        m1.messageId = m2.messageId) :=
  ⟨⟨by decide, by decide, by decide, _, _, rfl, rfl, by decide⟩,
    ⟨by decide, by decide, by decide, by decide, _, _, rfl, rfl, by decide⟩⟩

/-- Claim C7, amended: two calls of `makeMessage`, not both with the kind
Unknown or a value that names no enumerator, never produce equal `messageId`
values, given that, when both kinds are among Text, Image, File and Speech,
the two calls draw UUIDs whose last groups of 12 hexadecimal digits differ. -/
theorem makeMessage_ids_differ (env1 env2 : Env) (kind1 kind2 : MessageType)
    (sessionId1 sessionId2 : QString) (sender1 sender2 : UserInfo)
    (content1 content2 : QByteArray) (extra1 extra2 : QString)
    (hu1 : isBracedUuid env1.uuid = true) (hu2 : isBracedUuid env2.uuid = true)
    (hk : (kind1 = TEXT_TYPE ∨ kind1 = IMAGE_TYPE ∨ kind1 = FILE_TYPE ∨ kind1 = SPEECH_TYPE) ∨
      (kind2 = TEXT_TYPE ∨ kind2 = IMAGE_TYPE ∨ kind2 = FILE_TYPE ∨ kind2 = SPEECH_TYPE))
    (hg : (kind1 = TEXT_TYPE ∨ kind1 = IMAGE_TYPE ∨ kind1 = FILE_TYPE ∨ kind1 = SPEECH_TYPE) →
      (kind2 = TEXT_TYPE ∨ kind2 = IMAGE_TYPE ∨ kind2 = FILE_TYPE ∨ kind2 = SPEECH_TYPE) →
      lastGroup env1.uuid ≠ lastGroup env2.uuid) :
    ∃ m1 m2,
      Message.makeMessage env1 kind1 sessionId1 sender1 content1 extra1 = some m1 ∧
      Message.makeMessage env2 kind2 sessionId2 sender2 content2 extra2 = some m2 ∧
      m1.messageId ≠ m2.messageId := by
  have h1 := length_of_isBracedUuid hu1
  have h2 := length_of_isBracedUuid hu2
  rcases makeMessage_cases h1 kind1 sessionId1 sender1 content1 extra1 with
    ⟨hv1, hm1⟩ | ⟨hn1, hm1⟩ <;>
  rcases makeMessage_cases h2 kind2 sessionId2 sender2 content2 extra2 with
    ⟨hv2, hm2⟩ | ⟨hn2, hm2⟩
  · refine ⟨_, _, hm1, hm2, ?_⟩
    intro heq
    apply hg hv1 hv2
    have hd := congrArg String.data heq
    simpa using hd
  · exact ⟨_, _, hm1, hm2, makeId_ne_empty _⟩
  · exact ⟨_, _, hm1, hm2, fun heq => makeId_ne_empty _ heq.symm⟩
  · exfalso
    rcases hk with hk | hk
    · rcases hk with hk | hk | hk | hk
      · exact hn1.1 hk
      · exact hn1.2.1 hk
      · exact hn1.2.2.1 hk
      · exact hn1.2.2.2 hk
    · rcases hk with hk | hk | hk | hk
      · exact hn2.1 hk
      · exact hn2.2.1 hk
      · exact hn2.2.2.1 hk
      · exact hn2.2.2.2 hk

theorem makeMessage_ids_differ_witness :
    isBracedUuid sampleUuid = true ∧ isBracedUuid sampleUuidOther = true ∧
    lastGroup sampleUuid ≠ lastGroup sampleUuidOther ∧
    ∃ m1 m2,
      Message.makeMessage { uuid := sampleUuid, secTime := 1709649000, utcOffset := 0 }
        TEXT_TYPE "s1" sampleSender sampleContent "" = some m1 ∧
      Message.makeMessage { uuid := sampleUuidOther, secTime := 1709649000, utcOffset := 0 }
        FILE_TYPE "s1" sampleSender sampleContent "a.txt" = some m2 ∧
      m1.messageId ≠ m2.messageId :=
  ⟨by decide, by decide, by decide,
    makeMessage_ids_differ { uuid := sampleUuid, secTime := 1709649000, utcOffset := 0 }
      { uuid := sampleUuidOther, secTime := 1709649000, utcOffset := 0 }
      TEXT_TYPE FILE_TYPE "s1" "s1" sampleSender sampleSender sampleContent sampleContent
      "" "a.txt" (by decide) (by decide) (Or.inl (Or.inl rfl)) (fun _ _ => by decide)⟩

/-- Claim C10: for every kind value the message returned by `makeMessage`
has an empty `fileId`. -/
theorem makeMessage_fileId_empty (env : Env) (kind : MessageType) (sessionId : QString)
    (sender : UserInfo) (content : QByteArray) (extra : QString)
    (hu : isBracedUuid env.uuid = true) :
    ∃ m, Message.makeMessage env kind sessionId sender content extra = some m ∧
      m.fileId = "" := by
  have h := length_of_isBracedUuid hu
  rcases makeMessage_cases h kind sessionId sender content extra with ⟨_, hm⟩ | ⟨_, hm⟩
  · exact ⟨_, hm, rfl⟩
  · exact ⟨_, hm, rfl⟩

theorem makeMessage_fileId_empty_witness :
    isBracedUuid sampleEnv.uuid = true ∧
    ∃ m, Message.makeMessage sampleEnv FILE_TYPE "s1" sampleSender sampleContent "a.txt" = some m ∧
      m.fileId = "" :=
  ⟨by decide, makeMessage_fileId_empty sampleEnv FILE_TYPE "s1" sampleSender sampleContent "a.txt"
    (by decide)⟩


/-! ## The calendar conversion follows the calendar -/

theorem century_next (a b b' : Int) (hb : b = (4 * a + 3) / 146097)
    (hb' : b' = (4 * (a + 1) + 3) / 146097) : b' = b ∨ b' = b + 1 := by omega

theorem century_day (b : Int) : 146097 * b / 4 = 36524 * b + b / 4 := by omega

theorem year_day (d : Int) : 1461 * d / 4 = 365 * d + d / 4 := by omega

theorem century_bounds (a b c : Int) (hb : b = (4 * a + 3) / 146097)
    (hc : c = a - (36524 * b + b / 4)) :
    0 ≤ c ∧ c ≤ (if b % 4 = 3 then 36524 else 36523) := by
  split_ifs <;> omega

theorem century_last (a b c : Int) (hb : b = (4 * a + 3) / 146097)
    (hb' : b + 1 = (4 * (a + 1) + 3) / 146097)
    (hc : c = a - (36524 * b + b / 4)) :
    a + 1 - (36524 * (b + 1) + (b + 1) / 4) = 0 ∧
      c = (if b % 4 = 3 then 36524 else 36523) := by
  split_ifs <;> omega

theorem year_next (c d d' : Int) (hd : d = (4 * c + 3) / 1461)
    (hd' : d' = (4 * (c + 1) + 3) / 1461) : d' = d ∨ d' = d + 1 := by omega

theorem year_bounds (c d e : Int) (h0 : 0 ≤ c) (h1 : c ≤ 36524)
    (hd : d = (4 * c + 3) / 1461) (he : e = c - (365 * d + d / 4)) :
    0 ≤ d ∧ d ≤ 99 ∧ 0 ≤ e ∧ e ≤ (if d % 4 = 3 then 365 else 364) := by
  split_ifs <;> omega

theorem year_last (c d e : Int) (hd : d = (4 * c + 3) / 1461)
    (hd' : d + 1 = (4 * (c + 1) + 3) / 1461) (he : e = c - (365 * d + d / 4)) :
    c + 1 - (365 * (d + 1) + (d + 1) / 4) = 0 ∧
      e = (if d % 4 = 3 then 365 else 364) := by
  split_ifs <;> omega

theorem month_bounds (e m : Int) (h0 : 0 ≤ e) (h1 : e ≤ 365) (hm : m = (5 * e + 2) / 153) :
    0 ≤ m ∧ m ≤ 11 := by omega

theorem month_next (e m m' : Int) (hm : m = (5 * e + 2) / 153)
    (hm' : m' = (5 * (e + 1) + 2) / 153) :
    m' = m ∨ (m' = m + 1 ∧ e + 1 = (153 * (m + 1) + 2) / 5) := by omega

theorem parts_bounds (a : Int) :
    0 ≤ yearOf a ∧ yearOf a ≤ 99 ∧ 0 ≤ yearDay a ∧
      yearDay a ≤ lastDay (centuryOf a) (yearOf a) ∧
      0 ≤ monthOf a ∧ monthOf a ≤ 11 := by
  have hc := century_bounds a (centuryOf a) (centuryDay a) rfl
    (by rw [← century_day]; rfl)
  have hc1 : centuryDay a ≤ 36524 := by split_ifs at hc <;> omega
  have hy := year_bounds (centuryDay a) (yearOf a) (yearDay a) hc.1 hc1 rfl
    (by rw [← year_day]; rfl)
  have he1 : yearDay a ≤ 365 := by split_ifs at hy <;> omega
  have hm := month_bounds (yearDay a) (monthOf a) hy.2.2.1 he1 rfl
  refine ⟨hy.1, hy.2.1, hy.2.2.1, ?_, hm.1, hm.2⟩
  have he : yearDay a = centuryDay a - (365 * yearOf a + yearOf a / 4) := by
    rw [← year_day]; rfl
  have hd : yearOf a = (4 * centuryDay a + 3) / 1461 := rfl
  have hy3 := hy.2.2.2
  have hc2 := hc.2
  generalize yearDay a = e at *
  generalize yearOf a = d at *
  generalize centuryDay a = c at *
  generalize centuryOf a = b at *
  clear hc hy hm
  unfold lastDay
  split_ifs at * <;> omega

theorem parts_succ (a : Int) :
    (centuryOf (a + 1) = centuryOf a ∧ yearOf (a + 1) = yearOf a ∧
      monthOf (a + 1) = monthOf a ∧ yearDay (a + 1) = yearDay a + 1) ∨
    (centuryOf (a + 1) = centuryOf a ∧ yearOf (a + 1) = yearOf a ∧
      monthOf (a + 1) = monthOf a + 1 ∧ yearDay (a + 1) = yearDay a + 1 ∧
      yearDay a + 1 = (153 * (monthOf a + 1) + 2) / 5) ∨
    (centuryOf (a + 1) = centuryOf a ∧ yearOf (a + 1) = yearOf a + 1 ∧
      monthOf (a + 1) = 0 ∧ yearDay (a + 1) = 0 ∧
      yearDay a = (if yearOf a % 4 = 3 then 365 else 364)) ∨
    (centuryOf (a + 1) = centuryOf a + 1 ∧ yearOf (a + 1) = 0 ∧ yearOf a = 99 ∧
      monthOf (a + 1) = 0 ∧ yearDay (a + 1) = 0 ∧
      yearDay a = (if centuryOf a % 4 = 3 then 365 else 364)) := by
  rcases century_next a (centuryOf a) (centuryOf (a + 1)) rfl rfl with hb | hb
  · have hc : centuryDay (a + 1) = centuryDay a + 1 := by
      unfold centuryDay; rw [hb]; ring
    have hd0 : yearOf (a + 1) = (4 * (centuryDay a + 1) + 3) / 1461 := by
      unfold yearOf; rw [hc]
    rcases year_next (centuryDay a) (yearOf a) (yearOf (a + 1)) rfl hd0 with hd | hd
    · have he : yearDay (a + 1) = yearDay a + 1 := by
        unfold yearDay; rw [hc, hd]; ring
      have hm0 : monthOf (a + 1) = (5 * (yearDay a + 1) + 2) / 153 := by
        unfold monthOf; rw [he]
      rcases month_next (yearDay a) (monthOf a) (monthOf (a + 1)) rfl hm0 with hm | hm
      · exact Or.inl ⟨hb, hd, hm, he⟩
      · exact Or.inr (Or.inl ⟨hb, hd, hm.1, he, hm.2⟩)
    · have hl := year_last (centuryDay a) (yearOf a) (yearDay a) rfl (by rw [← hd, hd0])
        (by rw [← year_day]; rfl)
      have he : yearDay (a + 1) = 0 := by
        unfold yearDay; rw [hc, hd, year_day]; exact hl.1
      have hm : monthOf (a + 1) = 0 := by
        unfold monthOf; rw [he]; rfl
      exact Or.inr (Or.inr (Or.inl ⟨hb, hd, hm, he, hl.2⟩))
  · have hl := century_last a (centuryOf a) (centuryDay a) rfl (by rw [← hb]; rfl)
      (by rw [← century_day]; rfl)
    have hc : centuryDay (a + 1) = 0 := by
      unfold centuryDay; rw [hb, century_day]; exact hl.1
    have hd : yearOf (a + 1) = 0 := by
      unfold yearOf; rw [hc]; rfl
    have he : yearDay (a + 1) = 0 := by
      unfold yearDay; rw [hc, hd]; rfl
    have hm : monthOf (a + 1) = 0 := by
      unfold monthOf; rw [he]; rfl
    have hd0 : yearOf a = (4 * centuryDay a + 3) / 1461 := rfl
    have he0 : yearDay a = centuryDay a - (365 * yearOf a + yearOf a / 4) := by
      rw [← year_day]; rfl
    have hl2 := hl.2
    refine Or.inr (Or.inr (Or.inr ⟨hb, hd, ?_, hm, he, ?_⟩))
    · split_ifs at hl2 <;> omega
    · split_ifs at hl2 ⊢ <;> omega

theorem daysInMonth_march (y m : Int) (hm0 : 0 ≤ m) (hm1 : m ≤ 10) :
    daysInMonth y (m + 3 - 12 * (m / 10)) = (153 * (m + 1) + 2) / 5 - (153 * m + 2) / 5 := by
  interval_cases m <;> simp [daysInMonth]

theorem isLeapYear_iff (b d : Int) (hd0 : 0 ≤ d) (hd1 : d ≤ 99) :
    isLeapYear (100 * b + d - 4800 + 1) = true ↔ d % 4 = 3 ∧ (d ≠ 99 ∨ b % 4 = 3) := by
  simp only [isLeapYear, decide_eq_true_eq, Bool.decide_and, Bool.decide_or,
      Bool.and_eq_true, Bool.or_eq_true, decide_not, Bool.not_eq_true',
      decide_eq_false_iff_not, ne_eq]
  omega

theorem daysInMonth_february (b d : Int) (hd0 : 0 ≤ d) (hd1 : d ≤ 99) :
    daysInMonth (100 * b + d - 4800 + 1) 2 = lastDay b d - 336 := by
  unfold daysInMonth lastDay
  rw [if_pos rfl]
  by_cases h : d % 4 = 3 ∧ (d ≠ 99 ∨ b % 4 = 3)
  · rw [if_pos ((isLeapYear_iff b d hd0 hd1).2 h), if_pos h]; rfl
  · rw [if_neg (fun hl => h ((isLeapYear_iff b d hd0 hd1).1 hl)), if_neg h]; rfl

theorem daysInMonth_parts (b d m : Int) (hd0 : 0 ≤ d) (hd1 : d ≤ 99) (hm0 : 0 ≤ m)
    (hm1 : m ≤ 11) :
    daysInMonth (100 * b + d - 4800 + m / 10) (m + 3 - 12 * (m / 10)) =
      if m = 11 then lastDay b d - 336 else (153 * (m + 1) + 2) / 5 - (153 * m + 2) / 5 := by
  by_cases h : m = 11
  · subst h
    rw [if_pos rfl, ← daysInMonth_february b d hd0 hd1]
    rfl
  · rw [if_neg h]
    exact daysInMonth_march _ m hm0 (by omega)

theorem astroDate_same_month (b d e m : Int) (hd0 : 0 ≤ d) (hd1 : d ≤ 99)
    (hm0 : 0 ≤ m) (hm1 : m ≤ 11) (hm : m = (5 * (e + 1) + 2) / 153)
    (he : e + 1 ≤ lastDay b d) :
    astroDate b d (e + 1) m = nextDay (astroDate b d e m) := by
  unfold nextDay astroDate
  simp only []
  rw [daysInMonth_parts b d m hd0 hd1 hm0 hm1, if_pos]
  · simp only [QDate.mk.injEq, true_and]
    omega
  · split_ifs <;> omega

theorem astroDate_next_month (b d e m : Int) (hd0 : 0 ≤ d) (hd1 : d ≤ 99)
    (hm0 : 0 ≤ m) (hm1 : m ≤ 10) (he : e + 1 = (153 * (m + 1) + 2) / 5) :
    astroDate b d (e + 1) (m + 1) = nextDay (astroDate b d e m) := by
  have hdim : daysInMonth (100 * b + d - 4800 + m / 10) (m + 3 - 12 * (m / 10)) =
      (153 * (m + 1) + 2) / 5 - (153 * m + 2) / 5 := by
    rw [daysInMonth_parts b d m hd0 hd1 hm0 (by omega), if_neg (by omega : ¬ m = 11)]
  unfold nextDay astroDate
  simp only []
  rw [hdim, if_neg (by omega :
    ¬ (e - (153 * m + 2) / 5 + 1 < (153 * (m + 1) + 2) / 5 - (153 * m + 2) / 5))]
  by_cases h9 : m = 9
  · subst h9
    rw [if_neg (by omega)]
    simp only [QDate.mk.injEq]
    omega
  · rw [if_pos (by omega)]
    simp only [QDate.mk.injEq]
    omega

theorem astroDate_next_year (b d b' d' : Int) (hd0 : 0 ≤ d) (hd1 : d ≤ 99)
    (hy : 100 * b' + d' = 100 * b + d + 1) :
    astroDate b' d' 0 0 = nextDay (astroDate b d (lastDay b d) 11) := by
  unfold nextDay astroDate
  simp only []
  rw [daysInMonth_parts b d 11 hd0 hd1 (by omega) (by omega), if_pos rfl,
    if_neg (by omega), if_pos (by omega)]
  simp only [QDate.mk.injEq]
  omega

theorem prevDay_same_month (b d e m : Int) (hm : m = (5 * e + 2) / 153) :
    prevDay (astroDate b d (e + 1) m) = astroDate b d e m := by
  unfold prevDay astroDate
  simp only []
  rw [if_pos (by omega)]
  simp only [QDate.mk.injEq, true_and]
  omega

theorem prevDay_next_month (b d e m : Int) (hd0 : 0 ≤ d) (hd1 : d ≤ 99)
    (hm0 : 0 ≤ m) (hm1 : m ≤ 10) (he : e + 1 = (153 * (m + 1) + 2) / 5) :
    prevDay (astroDate b d (e + 1) (m + 1)) = astroDate b d e m := by
  have hdim : daysInMonth (100 * b + d - 4800 + m / 10) (m + 3 - 12 * (m / 10)) =
      (153 * (m + 1) + 2) / 5 - (153 * m + 2) / 5 := by
    rw [daysInMonth_parts b d m hd0 hd1 hm0 (by omega), if_neg (by omega : ¬ m = 11)]
  unfold prevDay astroDate
  simp only []
  rw [if_neg (by omega)]
  by_cases h9 : m = 9
  · subst h9
    rw [if_neg (by omega)]
    simp only [QDate.mk.injEq]
    omega
  · rw [if_pos (by omega)]
    have hy : 100 * b + d - 4800 + (m + 1) / 10 = 100 * b + d - 4800 + m / 10 := by omega
    have hmo : m + 1 + 3 - 12 * ((m + 1) / 10) - 1 = m + 3 - 12 * (m / 10) := by omega
    rw [hy, hmo, hdim]
    simp only [QDate.mk.injEq, true_and]
    omega

theorem prevDay_next_year (b d b' d' : Int) (hd0 : 0 ≤ d) (hd1 : d ≤ 99)
    (hy : 100 * b' + d' = 100 * b + d + 1) :
    prevDay (astroDate b' d' 0 0) = astroDate b d (lastDay b d) 11 := by
  have hdim := daysInMonth_february b d hd0 hd1
  have hyr : 100 * b' + d' - 4800 + 0 / 10 = 100 * b + d - 4800 + 1 := by omega
  unfold prevDay astroDate
  simp only []
  rw [if_neg (by omega), if_pos (by omega), hyr]
  have hmo : (0 : Int) + 3 - 12 * (0 / 10) - 1 = 2 := by decide
  rw [hmo, hdim]
  simp only [QDate.mk.injEq]
  omega

/-- The day after day `a` and the day before day `a + 1`, as the conversion
sees them, are the ones of the calendar. -/
theorem astroOf_step (a : Int) :
    astroOf (a + 1) = nextDay (astroOf a) ∧ prevDay (astroOf (a + 1)) = astroOf a := by
  have hp := parts_bounds a
  have hp' := parts_bounds (a + 1)
  unfold astroOf
  rcases parts_succ a with ⟨h1, h2, h3, h4⟩ | ⟨h1, h2, h3, h4, h5⟩ | ⟨h1, h2, h3, h4, h5⟩ |
      ⟨h1, h2, h3, h4, h5, h6⟩
  · rw [h1, h2, h3, h4]
    refine ⟨astroDate_same_month _ _ _ _ hp.1 hp.2.1 hp.2.2.2.2.1 hp.2.2.2.2.2 ?_ ?_,
      prevDay_same_month _ _ _ _ rfl⟩
    · rw [← h3, ← h4]; rfl
    · rw [← h4, ← h1, ← h2]; exact hp'.2.2.2.1
  · rw [h1, h2, h3, h4]
    have hm9 : monthOf a ≤ 10 := by have := hp'.2.2.2.2.2; omega
    exact ⟨astroDate_next_month _ _ _ _ hp.1 hp.2.1 hp.2.2.2.2.1 hm9 h5,
      prevDay_next_month _ _ _ _ hp.1 hp.2.1 hp.2.2.2.2.1 hm9 h5⟩
  · have hm : monthOf a = 11 := by
      have : monthOf a = (5 * yearDay a + 2) / 153 := rfl
      split_ifs at h5 <;> omega
    have hl : yearDay a = lastDay (centuryOf a) (yearOf a) := by
      unfold lastDay
      have := hp'.2.1
      split_ifs at h5 ⊢ <;> omega
    rw [h3, h4, hm, hl]
    have hy : 100 * centuryOf (a + 1) + yearOf (a + 1) = 100 * centuryOf a + yearOf a + 1 := by
      rw [h1, h2]; ring
    exact ⟨astroDate_next_year _ _ _ _ hp.1 hp.2.1 hy, prevDay_next_year _ _ _ _ hp.1 hp.2.1 hy⟩
  · have hm : monthOf a = 11 := by
      have : monthOf a = (5 * yearDay a + 2) / 153 := rfl
      split_ifs at h6 <;> omega
    have hl : yearDay a = lastDay (centuryOf a) (yearOf a) := by
      unfold lastDay
      split_ifs at h6 ⊢ <;> omega
    rw [h4, h5, h2, hm, hl]
    have hy : 100 * centuryOf (a + 1) + 0 = 100 * centuryOf a + yearOf a + 1 := by
      rw [h1, h3]; ring
    exact ⟨astroDate_next_year _ _ _ _ hp.1 hp.2.1 hy, prevDay_next_year _ _ _ _ hp.1 hp.2.1 hy⟩

theorem astroOf_forward (k : Nat) : astroOf (2472632 + (k : Int)) = nextDay^[k] epochDate := by
  induction k with
  | zero => rfl
  | succ k ih =>
    rw [Function.iterate_succ_apply', ← ih]
    have : (2472632 : Int) + ((k + 1 : Nat) : Int) = (2472632 + k) + 1 := by push_cast; ring
    rw [this]
    exact (astroOf_step _).1

theorem astroOf_backward (k : Nat) : astroOf (2472632 - (k : Int)) = prevDay^[k] epochDate := by
  induction k with
  | zero => rfl
  | succ k ih =>
    rw [Function.iterate_succ_apply', ← ih]
    have : (2472632 : Int) - (k : Int) = (2472632 - ((k + 1 : Nat) : Int)) + 1 := by
      push_cast; ring
    rw [this]
    exact ((astroOf_step _).2).symm

/-- The conversion agrees with the calendar on every day, before and after
the epoch. -/
theorem astroOf_civilDate (n : Int) : astroOf (2472632 + n) = civilDate n := by
  unfold civilDate
  by_cases h : 0 ≤ n
  · rw [if_pos h]
    have := astroOf_forward n.toNat
    rwa [Int.toNat_of_nonneg h] at this
  · rw [if_neg h]
    have := astroOf_backward (-n).toNat
    rw [Int.toNat_of_nonneg (by omega)] at this
    rw [← this]
    congr 1
    ring

/-- The date of the conversion is the astronomical date of the same day, with
the years up to 0 moved one down because Qt has no year 0. -/
theorem julianToGregorian_astro (jd : Int) :
    (julianToGregorian jd).month = (astroOf (jd + 32044)).month ∧
      (julianToGregorian jd).day = (astroOf (jd + 32044)).day ∧
      (julianToGregorian jd).year =
        if (astroOf (jd + 32044)).year > 0 then (astroOf (jd + 32044)).year
        else (astroOf (jd + 32044)).year - 1 :=
  ⟨rfl, rfl, rfl⟩

theorem astroOf_bounds (a : Int) :
    1 ≤ (astroOf a).month ∧ (astroOf a).month ≤ 12 ∧
      1 ≤ (astroOf a).day ∧ (astroOf a).day ≤ 31 := by
  have hp := parts_bounds a
  have hm : monthOf a = (5 * yearDay a + 2) / 153 := rfl
  have he : yearDay a ≤ 365 := by
    have := hp.2.2.2.1
    unfold lastDay at this
    split_ifs at this <;> omega
  have he0 := hp.2.2.1
  have hm0 := hp.2.2.2.2.1
  have hm1 := hp.2.2.2.2.2
  unfold astroOf astroDate
  simp only []
  clear hp
  generalize monthOf a = m at *
  generalize yearDay a = e at *
  refine ⟨?_, ?_, ?_, ?_⟩
  · omega
  · interval_cases m <;> omega
  · omega
  · interval_cases m <;> omega

/-! ## The formatted time -/

theorem number2_eq (n : Int) (h0 : 0 ≤ n) (h1 : n < 100) : number2 n = twoDigits n.toNat := by
  lift n to Nat using h0
  have hk : n < 100 := by omega
  interval_cases n <;> rfl

theorem expand_format (dt : QDateTime) :
    dt.expand "MM-dd HH:mm::ss".data =
      number2 dt.date.month ++ '-' :: (number2 dt.date.day ++ ' ' :: (number2 dt.time.hour ++
        ':' :: (number2 dt.time.minute ++ ':' :: ':' :: (number2 dt.time.second ++ [])))) := by
  rfl

/-- The range of `QDateTime` in numbers. -/
theorem secsInRange_iff (utcOffset t : Int) :
    QDateTime.secsInRange utcOffset t = true ↔
      -9223372036854775 ≤ t ∧ t ≤ 9223372036854775 ∧
      -9223372036854775808 ≤ t * 1000 + utcOffset * 1000 ∧
      t * 1000 + utcOffset * 1000 ≤ 9223372036854775807 := by
  have hmin : Int.tdiv INT64_MIN MSECS_PER_SEC = -9223372036854775 := by decide
  have hmax : Int.tdiv INT64_MAX MSECS_PER_SEC = 9223372036854775 := by decide
  unfold QDateTime.secsInRange
  rw [hmin, hmax]
  simp only [INT64_MIN, INT64_MAX, MSECS_PER_SEC, Bool.decide_and, Bool.and_eq_true,
    decide_eq_true_eq]

/-- In UTC the range of `QDateTime` is a range of timestamps. -/
theorem secsInRange_utc (t : Int) (h0 : -9223372036854775 ≤ t) (h1 : t ≤ 9223372036854775) :
    QDateTime.secsInRange 0 t = true := by
  rw [secsInRange_iff]
  omega

/-- The local time of a timestamp in range is in the range of UTC. -/
theorem secsInRange_local (utcOffset t : Int) (h : QDateTime.secsInRange utcOffset t = true) :
    QDateTime.secsInRange 0 (t + utcOffset) = true := by
  rw [secsInRange_iff] at h ⊢
  omega

theorem formatTime_eq (utcOffset t : Int) (h : QDateTime.secsInRange utcOffset t = true) :
    formatTime utcOffset t =
      String.mk (number2 (julianToGregorian (2440588 + (t + utcOffset) / 86400)).month ++
        '-' :: (number2 (julianToGregorian (2440588 + (t + utcOffset) / 86400)).day ++
        ' ' :: (number2 ((t + utcOffset) % 86400 / 3600) ++
        ':' :: (number2 ((t + utcOffset) % 86400 % 3600 / 60) ++
        ':' :: ':' :: (number2 ((t + utcOffset) % 86400 % 60) ++ []))))) := by
  unfold formatTime QDateTime.fromSecsSinceEpoch
  simp only []
  rw [if_pos h]
  unfold QDateTime.toString
  rw [if_pos rfl, expand_format]
  rfl

/-- Outside the range of `QDateTime` the formatted time is empty. -/
theorem formatTime_of_not_inRange (utcOffset t : Int)
    (h : QDateTime.secsInRange utcOffset t = false) : formatTime utcOffset t = "" := by
  unfold formatTime QDateTime.fromSecsSinceEpoch
  simp only []
  rw [if_neg (by rw [h]; decide)]
  rfl

/-- Claim C8, as stated, fails for timestamps beyond the range of `QDateTime`:
in UTC the non-negative timestamp 9223372036854776, one more than a thousandth
of the largest 64-bit integer, and the largest 64-bit integer itself give the
empty text, not a text of 15 characters. -/
theorem formatTime_beyond_range :
    (0 : Int) ≤ 9223372036854776 ∧ (9223372036854776 : Int) ≤ INT64_MAX ∧
    formatTime 0 9223372036854776 = "" ∧
    (formatTime 0 9223372036854776).length ≠ 15 ∧
    formatTime 0 INT64_MAX = "" ∧
    (formatTime 0 INT64_MAX).length ≠ 15 := by
  have h1 : formatTime 0 9223372036854776 = "" := formatTime_of_not_inRange _ _ (by decide)
  have h2 : formatTime 0 INT64_MAX = "" := formatTime_of_not_inRange _ _ (by decide)
  refine ⟨by decide, by decide, h1, ?_, h2, ?_⟩
  · rw [h1]; decide
  · rw [h2]; decide

/-- Claim C8, amended: for every timestamp `t` in the range of `QDateTime` (at
most 9223372036854775 either side of the epoch, its local time in
milliseconds within 64 bits; in UTC this is every `t` from 0 up to
9223372036854775, and the negative ones down to -9223372036854775), and in
every fixed time zone, `formatTime` is the 15-character text `MM-dd HH:mm::ss`
of the calendar date and time of day of `t`.  With `n` the whole days and `h`,
`mi`, `s` the hour, minute and second that make up the local time, and with
month `mo` and day `d` of the civil date `n` days from 1 January 1970, the
text is: two digits of `mo`, a hyphen, two digits of `d`, a space, two digits
of `h`, a colon, two digits of `mi`, two colons, two digits of `s`; there is no
year.  The epoch second 1709649000 (2024-03-05 14:30:00 UTC) gives
"03-05 14:30::00". -/
theorem formatTime_calendar (utcOffset t : Int)
    (hr : QDateTime.secsInRange utcOffset t = true) :
    ∃ (n : Int) (mo d h mi s : Nat),
      t + utcOffset = 86400 * n + 3600 * (h : Int) + 60 * (mi : Int) + (s : Int) ∧
      h < 24 ∧ mi < 60 ∧ s < 60 ∧
      (civilDate n).month = (mo : Int) ∧ (civilDate n).day = (d : Int) ∧
      1 ≤ mo ∧ mo ≤ 12 ∧ 1 ≤ d ∧ d ≤ 31 ∧
      formatTime utcOffset t =
        String.mk (twoDigits mo ++ ['-'] ++ twoDigits d ++ [' '] ++ twoDigits h ++ [':'] ++
          twoDigits mi ++ [':', ':'] ++ twoDigits s) ∧
      (formatTime utcOffset t).length = 15 ∧
      formatTime 0 1709649000 = "03-05 14:30::00" := by
  have hfmt := formatTime_eq utcOffset t hr
  generalize hn : (t + utcOffset) / 86400 = n at hfmt
  have hmd := julianToGregorian_astro (2440588 + n)
  have hciv : astroOf (2440588 + n + 32044) = civilDate n := by
    have := astroOf_civilDate n
    rw [← this]
    congr 1
    ring
  rw [hciv] at hmd
  have hb := astroOf_bounds (2440588 + n + 32044)
  rw [hciv] at hb
  rw [hmd.1, hmd.2.1] at hfmt
  generalize hdate : civilDate n = date at hb hfmt
  obtain ⟨mo, hmo⟩ : ∃ mo : Nat, date.month = (mo : Int) := ⟨date.month.toNat, by omega⟩
  obtain ⟨d, hd⟩ : ∃ d : Nat, date.day = (d : Int) := ⟨date.day.toNat, by omega⟩
  obtain ⟨h, hh⟩ : ∃ h : Nat, (t + utcOffset) % 86400 / 3600 = (h : Int) :=
    ⟨((t + utcOffset) % 86400 / 3600).toNat, by omega⟩
  obtain ⟨mi, hmi⟩ : ∃ mi : Nat, (t + utcOffset) % 86400 % 3600 / 60 = (mi : Int) :=
    ⟨((t + utcOffset) % 86400 % 3600 / 60).toNat, by omega⟩
  obtain ⟨s, hs⟩ : ∃ s : Nat, (t + utcOffset) % 86400 % 60 = (s : Int) :=
    ⟨((t + utcOffset) % 86400 % 60).toNat, by omega⟩
  rw [hmo, hd, hh, hmi, hs] at hfmt
  rw [number2_eq mo (by omega) (by omega), number2_eq d (by omega) (by omega),
    number2_eq h (by omega) (by omega), number2_eq mi (by omega) (by omega),
    number2_eq s (by omega) (by omega)] at hfmt
  simp only [Int.toNat_ofNat] at hfmt
  refine ⟨n, mo, d, h, mi, s, by omega, by omega, by omega, by omega, hdate ▸ hmo, hdate ▸ hd, by omega,
    by omega, by omega, by omega, ?_, ?_, by decide⟩
  · rw [hfmt]; rfl
  · rw [hfmt]; rfl

theorem formatTime_calendar_witness :
    QDateTime.secsInRange (-18000) 0 = true ∧
    ∃ (n : Int) (mo d h mi s : Nat),
      (0 : Int) + (-18000) = 86400 * n + 3600 * (h : Int) + 60 * (mi : Int) + (s : Int) ∧
      h < 24 ∧ mi < 60 ∧ s < 60 ∧
      (civilDate n).month = (mo : Int) ∧ (civilDate n).day = (d : Int) ∧
      1 ≤ mo ∧ mo ≤ 12 ∧ 1 ≤ d ∧ d ≤ 31 ∧
      formatTime (-18000) 0 =
        String.mk (twoDigits mo ++ ['-'] ++ twoDigits d ++ [' '] ++ twoDigits h ++ [':'] ++
          twoDigits mi ++ [':', ':'] ++ twoDigits s) ∧
      (formatTime (-18000) 0).length = 15 ∧
      formatTime 0 1709649000 = "03-05 14:30::00" :=
  ⟨by decide, formatTime_calendar (-18000) 0 (by decide)⟩

/-- Claim C9: for a UUID text in the braced form (38 characters, groups of
8, 4, 4, 4 and 12 hexadecimal digits), `makeId` returns a text of exactly 13
characters: the letter M followed by the last group of the UUID, which is the
12 characters at offsets 25 to 36; all of them are hexadecimal digits, so the
text has no brace and no hyphen. -/
theorem makeId_shape (env : Env) (hu : isBracedUuid env.uuid = true) :
    ∃ id, Message.makeId env = some id ∧
      id.length = 13 ∧
      id.data = 'M' :: lastGroup env.uuid ∧
      (lastGroup env.uuid).length = 12 ∧
      (∀ i, i < 12 → (lastGroup env.uuid)[i]? = env.uuid.data[25 + i]?) ∧
      (∀ c ∈ lastGroup env.uuid, isHexDigit c = true) ∧
      '\x7b' ∉ id.data ∧ '\x7d' ∉ id.data ∧ '-' ∉ id.data := by
  have h := length_of_isBracedUuid hu
  have hlen := lastGroup_length h
  have hhex := lastGroup_hex hu
  have hdata : ("M" ++ String.mk (lastGroup env.uuid)).data = 'M' :: lastGroup env.uuid := rfl
  refine ⟨_, makeId_eq h, ?_, hdata, hlen, ?_, hhex, ?_, ?_, ?_⟩
  · show ("M" ++ String.mk (lastGroup env.uuid)).data.length = 13
    rw [hdata, List.length_cons, hlen]
  · intro i hi
    unfold lastGroup
    rw [List.getElem?_take, if_pos hi, List.getElem?_drop]
  · rw [hdata]
    intro hmem
    rcases List.mem_cons.1 hmem with hc | hc
    · exact absurd hc (by decide)
    · exact absurd (hhex _ hc) (by decide)
  · rw [hdata]
    intro hmem
    rcases List.mem_cons.1 hmem with hc | hc
    · exact absurd hc (by decide)
    · exact absurd (hhex _ hc) (by decide)
  · rw [hdata]
    intro hmem
    rcases List.mem_cons.1 hmem with hc | hc
    · exact absurd hc (by decide)
    · exact absurd (hhex _ hc) (by decide)

theorem makeId_shape_witness :
    isBracedUuid sampleEnv.uuid = true ∧
    ∃ id, Message.makeId sampleEnv = some id ∧
      id.length = 13 ∧
      id.data = 'M' :: lastGroup sampleEnv.uuid ∧
      (lastGroup sampleEnv.uuid).length = 12 ∧
      (∀ i, i < 12 → (lastGroup sampleEnv.uuid)[i]? = sampleEnv.uuid.data[25 + i]?) ∧
      (∀ c ∈ lastGroup sampleEnv.uuid, isHexDigit c = true) ∧
      '\x7b' ∉ id.data ∧ '\x7d' ∉ id.data ∧ '-' ∉ id.data :=
  ⟨by decide, makeId_shape sampleEnv (by decide)⟩

/-! ## The time text is not a sort key -/

theorem formatTime_shift (utcOffset t : Int)
    (h : QDateTime.secsInRange utcOffset t = true) :
    formatTime utcOffset t = formatTime 0 (t + utcOffset) := by
  rw [formatTime_eq utcOffset t h, formatTime_eq 0 (t + utcOffset) (secsInRange_local _ _ h),
    Int.add_zero]

/-- Claim C12: `formatTime` neither preserves order nor is injective.  There
are timestamps `t1 < t2` whose text for `t2` comes before the text for `t1` in
lexicographic order: in UTC, 1704067199 (31 December 2023, 23:59:59) gives
"12-31 23:59::59" and the next second gives "01-01 00:00::00".  And there are
two different timestamps with the same text: in UTC, 1678026600 and 1709649000
(5 March of 2023 and of 2024, 14:30:00) both give "03-05 14:30::00".  The same
two facts hold in every time zone whose offset leaves such timestamps within
the range of `QDateTime`: every offset up to 9000000000000000 seconds either
side of UTC, far beyond any real time zone. -/
theorem formatTime_not_sortable (utcOffset : Int) :
    (∃ t1 t2 : Int, t1 < t2 ∧ formatTime 0 t2 < formatTime 0 t1) ∧
    (∃ t1 t2 : Int, t1 ≠ t2 ∧ formatTime 0 t1 = formatTime 0 t2) ∧
    ((1704067199 : Int) < 1704067200 ∧
      formatTime 0 1704067199 = "12-31 23:59::59" ∧
      formatTime 0 1704067200 = "01-01 00:00::00" ∧
      formatTime 0 1704067200 < formatTime 0 1704067199) ∧
    ((1678026600 : Int) ≠ 1709649000 ∧
      formatTime 0 1678026600 = "03-05 14:30::00" ∧
      formatTime 0 1709649000 = "03-05 14:30::00") ∧
    (-9000000000000000 ≤ utcOffset ∧ utcOffset ≤ 9000000000000000 →
      (∃ t1 t2 : Int, t1 < t2 ∧ formatTime utcOffset t2 < formatTime utcOffset t1) ∧
      (∃ t1 t2 : Int, t1 ≠ t2 ∧ formatTime utcOffset t1 = formatTime utcOffset t2)) := by
  have hlt : formatTime 0 1704067200 < formatTime 0 1704067199 := by
    rw [String.lt_iff_toList_lt]
    decide
  have heq : formatTime 0 1678026600 = formatTime 0 1709649000 := by decide
  refine ⟨⟨1704067199, 1704067200, by decide, hlt⟩, ⟨1678026600, 1709649000, by decide, heq⟩,
    ⟨by decide, by decide, by decide, hlt⟩, ⟨by decide, by decide, by decide⟩, ?_⟩
  intro hoff
  have hin : ∀ L : Int, 0 ≤ L → L ≤ 2000000000 →
      QDateTime.secsInRange utcOffset (L - utcOffset) = true := by
    intro L h0 h1
    rw [secsInRange_iff]
    omega
  refine ⟨⟨1704067199 - utcOffset, 1704067200 - utcOffset, by omega, ?_⟩,
    ⟨1678026600 - utcOffset, 1709649000 - utcOffset, by omega, ?_⟩⟩
  · rw [formatTime_shift utcOffset (1704067200 - utcOffset) (hin _ (by decide) (by decide)),
      formatTime_shift utcOffset (1704067199 - utcOffset) (hin _ (by decide) (by decide)),
      Int.sub_add_cancel, Int.sub_add_cancel]
    exact hlt
  · rw [formatTime_shift utcOffset (1678026600 - utcOffset) (hin _ (by decide) (by decide)),
      formatTime_shift utcOffset (1709649000 - utcOffset) (hin _ (by decide) (by decide)),
      Int.sub_add_cancel, Int.sub_add_cancel]
    exact heq

theorem formatTime_not_sortable_witness :
    ((-9000000000000000 : Int) ≤ 28800 ∧ (28800 : Int) ≤ 9000000000000000) ∧
    (∃ t1 t2 : Int, t1 < t2 ∧ formatTime 28800 t2 < formatTime 28800 t1) ∧
    (∃ t1 t2 : Int, t1 ≠ t2 ∧ formatTime 28800 t1 = formatTime 28800 t2) :=
  ⟨by decide, (formatTime_not_sortable 28800).2.2.2.2 (by decide)⟩

/-! ## Empty identifiers -/

/-- Claim C13: the message returned by `makeMessage` has an empty `messageId`
exactly when the kind is none of Text, Image, File and Speech; hence a Text
message built by the factory, whatever its arguments (an empty `sessionId`, the
default sender and an empty content included), is not the default message, and
is not what any call with the kind Unknown or with a value that names no
enumerator returns. -/
theorem makeMessage_id_empty_iff (env : Env) (kind : MessageType) (sessionId : QString)
    (sender : UserInfo) (content : QByteArray) (extra : QString)
    (hu : isBracedUuid env.uuid = true) :
    (∃ m, Message.makeMessage env kind sessionId sender content extra = some m ∧
      (m.messageId = "" ↔
        ¬ (kind = TEXT_TYPE ∨ kind = IMAGE_TYPE ∨ kind = FILE_TYPE ∨ kind = SPEECH_TYPE))) ∧
    (∃ mt, Message.makeMessage env TEXT_TYPE sessionId sender content extra = some mt ∧
      mt ≠ ({} : Message) ∧
      ∀ (env2 : Env) (kind2 : MessageType) (sessionId2 : QString) (sender2 : UserInfo)
        (content2 : QByteArray) (extra2 : QString),
        (kind2 = UNKNOWN_TYPE ∨
          (kind2 ≠ TEXT_TYPE ∧ kind2 ≠ IMAGE_TYPE ∧ kind2 ≠ FILE_TYPE ∧ kind2 ≠ SPEECH_TYPE ∧
            kind2 ≠ UNKNOWN_TYPE)) →
        Message.makeMessage env2 kind2 sessionId2 sender2 content2 extra2 ≠ some mt) := by
  have h := length_of_isBracedUuid hu
  constructor
  · rcases makeMessage_cases h kind sessionId sender content extra with ⟨hv, hm⟩ | ⟨hn, hm⟩
    · exact ⟨_, hm, fun he => absurd he (makeId_ne_empty _), fun hnot => absurd hv hnot⟩
    · refine ⟨_, hm, fun _ => ?_, fun _ => rfl⟩
      intro hv
      rcases hv with hv | hv | hv | hv
      · exact hn.1 hv
      · exact hn.2.1 hv
      · exact hn.2.2.1 hv
      · exact hn.2.2.2 hv
  · have hne : ({ messageId := "M" ++ String.mk (lastGroup env.uuid)
                  chatSessionId := sessionId
                  time := formatTime env.utcOffset env.secTime
                  messageType := TEXT_TYPE
                  sender := sender
                  content := content
                  fileId := ""
                  fileName := if TEXT_TYPE = FILE_TYPE then extra else "" } : Message) ≠
        ({} : Message) := by
      intro heq
      exact makeId_ne_empty _ (congrArg Message.messageId heq)
    refine ⟨_, makeMessage_variant h TEXT_TYPE sessionId sender content extra (Or.inl rfl),
      hne, ?_⟩
    intro env2 kind2 sessionId2 sender2 content2 extra2 hk2 heq
    have hk4 : kind2 ≠ TEXT_TYPE ∧ kind2 ≠ IMAGE_TYPE ∧ kind2 ≠ FILE_TYPE ∧
        kind2 ≠ SPEECH_TYPE := by
      rcases hk2 with hk2 | hk2
      · subst hk2; decide
      · exact ⟨hk2.1, hk2.2.1, hk2.2.2.1, hk2.2.2.2.1⟩
    rw [makeMessage_other env2 kind2 sessionId2 sender2 content2 extra2 hk4.1 hk4.2.1
      hk4.2.2.1 hk4.2.2.2] at heq
    exact hne (Option.some.inj heq).symm

theorem makeMessage_id_empty_iff_witness :
    isBracedUuid sampleEnv.uuid = true ∧
    (∃ m, Message.makeMessage sampleEnv UNKNOWN_TYPE "" {} [] "" = some m ∧
      (m.messageId = "" ↔
        ¬ (UNKNOWN_TYPE = TEXT_TYPE ∨ UNKNOWN_TYPE = IMAGE_TYPE ∨ UNKNOWN_TYPE = FILE_TYPE ∨
          UNKNOWN_TYPE = SPEECH_TYPE))) ∧
    (∃ mt, Message.makeMessage sampleEnv TEXT_TYPE "" {} [] "" = some mt ∧
      mt ≠ ({} : Message) ∧
      ∀ (env2 : Env) (kind2 : MessageType) (sessionId2 : QString) (sender2 : UserInfo)
        (content2 : QByteArray) (extra2 : QString),
        (kind2 = UNKNOWN_TYPE ∨
          (kind2 ≠ TEXT_TYPE ∧ kind2 ≠ IMAGE_TYPE ∧ kind2 ≠ FILE_TYPE ∧ kind2 ≠ SPEECH_TYPE ∧
            kind2 ≠ UNKNOWN_TYPE)) →
        Message.makeMessage env2 kind2 sessionId2 sender2 content2 extra2 ≠ some mt) :=
  ⟨by decide, makeMessage_id_empty_iff sampleEnv UNKNOWN_TYPE "" {} [] "" (by decide)⟩

/-! ## The slice of the UUID text stays in range -/

theorem closing_brace_of_isBracedUuid {u : QString} (h : isBracedUuid u = true) :
    u.data.drop 37 = ['\x7d'] := by
  unfold isBracedUuid at h
  simp only [Bool.and_eq_true, beq_iff_eq] at h
  exact h.2

/-- Claim C14: the slice taken by `makeId` is always in range.  For every UUID
text of 38 characters, position 25 and length 12 satisfy `25 + 12 ≤ 38`, so
`sliced(25, 12)` does not take its out-of-range branch; it returns exactly 12
characters, those at offsets 25 to 36, and stops before the one character left
at offset 37, which in the braced form is the closing brace. -/
theorem sliced_in_range (u : QString) (h : u.length = 38) :
    ((0 : Int) ≤ 25 ∧ (0 : Int) ≤ 12 ∧ (25 : Int) + 12 ≤ (u.length : Int)) ∧
    QString.sliced u 25 12 ≠ none ∧
    ∃ part, QString.sliced u 25 12 = some part ∧
      Message.makeId { uuid := u, secTime := 0, utcOffset := 0 } = some ("M" ++ part) ∧
      part.length = 12 ∧
      (∀ i, i < 12 → part.data[i]? = u.data[25 + i]?) ∧
      part.data ++ u.data.drop 37 = u.data.drop 25 ∧
      (u.data.drop 37).length = 1 ∧
      (isBracedUuid u = true → u.data.drop 37 = ['\x7d'] ∧ '\x7d' ∉ part.data) := by
  have hs := sliced_uuid h
  have h38 : u.data.length = 38 := h
  refine ⟨⟨by decide, by decide, by rw [h]; decide⟩, ?_, String.mk (lastGroup u), hs, ?_,
    lastGroup_length h, ?_, ?_, ?_, ?_⟩
  · rw [hs]
    exact Option.some_ne_none _
  · have hid : Message.makeId { uuid := u, secTime := 0, utcOffset := 0 } =
        some ("M" ++ String.mk (lastGroup u)) := makeId_eq h
    exact hid
  · intro i hi
    show (lastGroup u)[i]? = u.data[25 + i]?
    unfold lastGroup
    rw [List.getElem?_take, if_pos hi, List.getElem?_drop]
  · show lastGroup u ++ u.data.drop 37 = u.data.drop 25
    unfold lastGroup
    have hd : List.drop 12 (List.drop 25 u.data) = List.drop 37 u.data := by
      rw [List.drop_drop]
    rw [← hd, List.take_append_drop]
  · rw [List.length_drop, h38]
  · intro hu
    refine ⟨closing_brace_of_isBracedUuid hu, ?_⟩
    intro hmem
    exact absurd (lastGroup_hex hu _ hmem) (by decide)

theorem sliced_in_range_witness :
    sampleUuid.length = 38 ∧
    ((0 : Int) ≤ 25 ∧ (0 : Int) ≤ 12 ∧ (25 : Int) + 12 ≤ (sampleUuid.length : Int)) ∧
    QString.sliced sampleUuid 25 12 ≠ none ∧
    ∃ part, QString.sliced sampleUuid 25 12 = some part ∧
      Message.makeId { uuid := sampleUuid, secTime := 0, utcOffset := 0 } = some ("M" ++ part) ∧
      part.length = 12 ∧
      (∀ i, i < 12 → part.data[i]? = sampleUuid.data[25 + i]?) ∧
      part.data ++ sampleUuid.data.drop 37 = sampleUuid.data.drop 25 ∧
      (sampleUuid.data.drop 37).length = 1 ∧
      (isBracedUuid sampleUuid = true →
        sampleUuid.data.drop 37 = ['\x7d'] ∧ '\x7d' ∉ part.data) :=
  ⟨by decide, sliced_in_range sampleUuid (by decide)⟩

end model
